import Mathlib

set_option linter.unusedVariables false

/-!
Verification of the boundary contract of swift-cactus (cpp fragment):
the logging facade (`logging.h`), the registration surface
(`cactus_util.h`) and the darwin telemetry stub
(`bin/darwin/telemetry_stub.cpp`).

The embedding is shallow: each C/C++ function becomes a Lean function;
the process state visible to these functions (files, network, heap
memory) is an explicit record threaded through every call; the interface
shape (names, parameter types, linkage) is transcribed as data so that
ABI-shape claims can be stated and decided.
-/

/-- Observable state of the process as far as this boundary layer is
concerned: files, network traffic, and heap memory. The telemetry stub
must leave all of it untouched. -/
structure ProcessState where
  files : List (String × String)
  network : List String
  memory : List (Nat × String)
deriving DecidableEq, Repr

/-- The no-op on process state. -/
def noOp (s : ProcessState) : ProcessState := s

namespace cactus.telemetry

/-- Embedding of the forward-declared, incomplete `CompletionMetrics`
type of the stub: the stub can name it but never inspect it, so the
development is parametric over the metrics type `μ`. -/
def MetricsIncomplete (μ : Type) : Type := μ

/-- Stub `cactus::telemetry::init(const char*, const char*, const char*)`:
empty body, state unchanged. Null pointers are `none`. -/
def init (a b c : Option String) (s : ProcessState) : ProcessState := s

/-- Stub `cactus::telemetry::setEnabled(bool)`: empty body. -/
def setEnabled (v : Bool) (s : ProcessState) : ProcessState := s

/-- Stub `cactus::telemetry::setCloudDisabled(bool)`: empty body. -/
def setCloudDisabled (v : Bool) (s : ProcessState) : ProcessState := s

/-- Stub `cactus::telemetry::setTelemetryEnvironment(const char*, const char*)`:
empty body. -/
def setTelemetryEnvironment (a b : Option String) (s : ProcessState) : ProcessState := s

/-- Stub `cactus::telemetry::setCloudKey(const char*)`: empty body. -/
def setCloudKey (a : Option String) (s : ProcessState) : ProcessState := s

/-- Stub `cactus::telemetry::recordInit(const char*, bool, double, const char*)`:
empty body. -/
def recordInit (a : Option String) (b : Bool) (c : Float) (d : Option String)
    (s : ProcessState) : ProcessState := s

/-- Stub `cactus::telemetry::recordCompletion(const char*, const CompletionMetrics&)`:
empty body; the metrics reference is never dereferenced, so the function is
parametric in the metrics type. -/
def recordCompletion {μ : Type} (a : Option String) (m : μ)
    (s : ProcessState) : ProcessState := s

/-- Stub `cactus::telemetry::recordCompletion(const char*, bool, double,
double, double, int, const char*)` (second overload): empty body. -/
def recordCompletionFull (a : Option String) (b : Bool) (c d e : Float)
    (f : Int) (g : Option String) (s : ProcessState) : ProcessState := s

/-- Stub `cactus::telemetry::recordEmbedding(const char*, bool, const char*)`:
empty body. -/
def recordEmbedding (a : Option String) (b : Bool) (c : Option String)
    (s : ProcessState) : ProcessState := s

/-- Stub `cactus::telemetry::recordTranscription(const char*, bool, double,
double, double, int, const char*)`: empty body. -/
def recordTranscription (a : Option String) (b : Bool) (c d e : Float)
    (f : Int) (g : Option String) (s : ProcessState) : ProcessState := s

/-- Stub `cactus::telemetry::recordStreamTranscription(const char*, bool,
double, double, double, int, double, double, double, int, const char*)`:
empty body. -/
def recordStreamTranscription (a : Option String) (b : Bool) (c d e : Float)
    (f : Int) (g h i : Float) (j : Int) (k : Option String)
    (s : ProcessState) : ProcessState := s

/-- Stub `cactus::telemetry::setStreamMode(bool)`: empty body. -/
def setStreamMode (v : Bool) (s : ProcessState) : ProcessState := s

/-- Stub `cactus::telemetry::markInference(bool)`: empty body. -/
def markInference (v : Bool) (s : ProcessState) : ProcessState := s

/-- Stub `cactus::telemetry::flush()`: empty body. -/
def flush (s : ProcessState) : ProcessState := s

/-- Stub `cactus::telemetry::shutdown()`: empty body. -/
def shutdown (s : ProcessState) : ProcessState := s

/-- One call to the telemetry stub, with its full argument list.
`μ` is the (incomplete, never-inspected) `CompletionMetrics` type. -/
inductive TelemetryCall (μ : Type) where
  | init (a b c : Option String)
  | setEnabled (v : Bool)
  | setCloudDisabled (v : Bool)
  | setTelemetryEnvironment (a b : Option String)
  | setCloudKey (a : Option String)
  | recordInit (a : Option String) (b : Bool) (c : Float) (d : Option String)
  | recordCompletion (a : Option String) (m : μ)
  | recordCompletionFull (a : Option String) (b : Bool) (c d e : Float)
      (f : Int) (g : Option String)
  | recordEmbedding (a : Option String) (b : Bool) (c : Option String)
  | recordTranscription (a : Option String) (b : Bool) (c d e : Float)
      (f : Int) (g : Option String)
  | recordStreamTranscription (a : Option String) (b : Bool) (c d e : Float)
      (f : Int) (g h i : Float) (j : Int) (k : Option String)
  | setStreamMode (v : Bool)
  | markInference (v : Bool)
  | flush
  | shutdown

/-- The C++ entry-point name of a telemetry call (both `recordCompletion`
overloads share the name `recordCompletion`). -/
def TelemetryCall.epName {μ : Type} : TelemetryCall μ → String
  | .init .. => "init"
  | .setEnabled .. => "setEnabled"
  | .setCloudDisabled .. => "setCloudDisabled"
  | .setTelemetryEnvironment .. => "setTelemetryEnvironment"
  | .setCloudKey .. => "setCloudKey"
  | .recordInit .. => "recordInit"
  | .recordCompletion .. => "recordCompletion"
  | .recordCompletionFull .. => "recordCompletion"
  | .recordEmbedding .. => "recordEmbedding"
  | .recordTranscription .. => "recordTranscription"
  | .recordStreamTranscription .. => "recordStreamTranscription"
  | .setStreamMode .. => "setStreamMode"
  | .markInference .. => "markInference"
  | .flush => "flush"
  | .shutdown => "shutdown"

/-- Execute one telemetry stub call on the process state, dispatching to
the per-entry-point embeddings above. -/
def step {μ : Type} : TelemetryCall μ → ProcessState → ProcessState
  | .init a b c, s => init a b c s
  | .setEnabled v, s => setEnabled v s
  | .setCloudDisabled v, s => setCloudDisabled v s
  | .setTelemetryEnvironment a b, s => setTelemetryEnvironment a b s
  | .setCloudKey a, s => setCloudKey a s
  | .recordInit a b c d, s => recordInit a b c d s
  | .recordCompletion a m, s => recordCompletion a m s
  | .recordCompletionFull a b c d e f g, s => recordCompletionFull a b c d e f g s
  | .recordEmbedding a b c, s => recordEmbedding a b c s
  | .recordTranscription a b c d e f g, s => recordTranscription a b c d e f g s
  | .recordStreamTranscription a b c d e f g h i j k, s =>
      recordStreamTranscription a b c d e f g h i j k s
  | .setStreamMode v, s => setStreamMode v s
  | .markInference v, s => markInference v s
  | .flush, s => flush s
  | .shutdown, s => shutdown s

/-- Execute a sequence of telemetry stub calls, left to right. -/
def runCalls {μ : Type} (calls : List (TelemetryCall μ)) (s : ProcessState) :
    ProcessState :=
  calls.foldl (fun st c => step c st) s

/-- Each single telemetry stub call leaves the state unchanged. -/
theorem step_eq {μ : Type} (c : TelemetryCall μ) (s : ProcessState) :
    step c s = s := by
  cases c <;> rfl

/-- A sequence of telemetry stub calls leaves the state unchanged. -/
theorem runCalls_eq {μ : Type} (calls : List (TelemetryCall μ)) (s : ProcessState) :
    runCalls calls s = s := by
  induction calls generalizing s with
  | nil => rfl
  | cons c rest ih =>
      have h1 : runCalls (c :: rest) s = runCalls rest (step c s) := rfl
      rw [h1, step_eq]
      exact ih s

end cactus.telemetry

/-- C1: every telemetry stub entry point, at every argument list, equals
the no-op on the observable process state (files, network, memory), and
hence every sequence of stub calls leaves the process state unchanged. -/
theorem telemetry_stub_all_noop :
    (∀ (a b c : Option String) (s : ProcessState),
        cactus.telemetry.init a b c s = noOp s)
    ∧ (∀ (v : Bool) (s : ProcessState), cactus.telemetry.setEnabled v s = noOp s)
    ∧ (∀ (v : Bool) (s : ProcessState), cactus.telemetry.setCloudDisabled v s = noOp s)
    ∧ (∀ (a b : Option String) (s : ProcessState),
        cactus.telemetry.setTelemetryEnvironment a b s = noOp s)
    ∧ (∀ (a : Option String) (s : ProcessState), cactus.telemetry.setCloudKey a s = noOp s)
    ∧ (∀ (a : Option String) (b : Bool) (c : Float) (d : Option String) (s : ProcessState),
        cactus.telemetry.recordInit a b c d s = noOp s)
    ∧ (∀ (μ : Type) (a : Option String) (m : μ) (s : ProcessState),
        cactus.telemetry.recordCompletion a m s = noOp s)
    ∧ (∀ (a : Option String) (b : Bool) (c d e : Float) (f : Int) (g : Option String)
        (s : ProcessState), cactus.telemetry.recordCompletionFull a b c d e f g s = noOp s)
    ∧ (∀ (a : Option String) (b : Bool) (c : Option String) (s : ProcessState),
        cactus.telemetry.recordEmbedding a b c s = noOp s)
    ∧ (∀ (a : Option String) (b : Bool) (c d e : Float) (f : Int) (g : Option String)
        (s : ProcessState), cactus.telemetry.recordTranscription a b c d e f g s = noOp s)
    ∧ (∀ (a : Option String) (b : Bool) (c d e : Float) (f : Int) (g h i : Float)
        (j : Int) (k : Option String) (s : ProcessState),
        cactus.telemetry.recordStreamTranscription a b c d e f g h i j k s = noOp s)
    ∧ (∀ (v : Bool) (s : ProcessState), cactus.telemetry.setStreamMode v s = noOp s)
    ∧ (∀ (v : Bool) (s : ProcessState), cactus.telemetry.markInference v s = noOp s)
    ∧ (∀ (s : ProcessState), cactus.telemetry.flush s = noOp s)
    ∧ (∀ (s : ProcessState), cactus.telemetry.shutdown s = noOp s)
    ∧ (∀ (μ : Type) (calls : List (cactus.telemetry.TelemetryCall μ)) (s : ProcessState),
        cactus.telemetry.runCalls calls s = s) := by
  repeat' apply And.intro
  all_goals intros
  all_goals first
    | exact cactus.telemetry.runCalls_eq _ _
    | rfl

/-! ## Logging facade (`logging.h`) -/

/-- The `LogLevel` enum of `logging.h`. -/
inductive LogLevel where
  | LOG_DEBUG
  | LOG_INFO
  | LOG_WARNING
  | LOG_ERROR
deriving DecidableEq, Repr

/-- The numeric value assigned to each enumerator in `logging.h`
(`LOG_DEBUG = 0, LOG_INFO = 1, LOG_WARNING = 2, LOG_ERROR = 3`). -/
def LogLevel.toNat : LogLevel → Nat
  | .LOG_DEBUG => 0
  | .LOG_INFO => 1
  | .LOG_WARNING => 2
  | .LOG_ERROR => 3

/-- One emitted log record: the ephemeral (level, tag, message) triple. -/
structure LogRecord where
  level : LogLevel
  tag : String
  message : String
deriving DecidableEq, Repr

/-- The platform log sink (console / OS log), most recent record first. -/
structure LogState where
  sink : List LogRecord
deriving DecidableEq, Repr

/-- Modelled from the spec: the body of `cactus_log(LogLevel, const char*,
const char*)` lives in the prebuilt binary; `logging.h` only declares it.
The spec says it emits the (level, tag, message) record through a
platform-appropriate sink, returns no value, and never throws or fails. -/
def cactus_log (level : LogLevel) (tag message : String) (s : LogState) :
    LogState :=
  { sink := ⟨level, tag, message⟩ :: s.sink }

/-- Modelled from the spec: the `std::string` overload
`cactus_log(LogLevel, const char*, const std::string&)` emits the same
record as the raw byte-string overload. -/
def cactus_log_string (level : LogLevel) (tag message : String) (s : LogState) :
    LogState :=
  cactus_log level tag message s

/-- The `LOG_TAG` macro of `logging.h`. -/
def LOG_TAG : String := "CactusUtil"

/-- The `CACTUS_LOG_DEBUG(msg)` macro: expands to
`cactus_log(LOG_DEBUG, LOG_TAG, msg)`. -/
def CACTUS_LOG_DEBUG (msg : String) (s : LogState) : LogState :=
  cactus_log LogLevel.LOG_DEBUG LOG_TAG msg s

/-- The `CACTUS_LOG_INFO(msg)` macro: expands to
`cactus_log(LOG_INFO, LOG_TAG, msg)`. -/
def CACTUS_LOG_INFO (msg : String) (s : LogState) : LogState :=
  cactus_log LogLevel.LOG_INFO LOG_TAG msg s

/-- The `CACTUS_LOG_WARNING(msg)` macro: expands to
`cactus_log(LOG_WARNING, LOG_TAG, msg)`. -/
def CACTUS_LOG_WARNING (msg : String) (s : LogState) : LogState :=
  cactus_log LogLevel.LOG_WARNING LOG_TAG msg s

/-- The `CACTUS_LOG_ERROR(msg)` macro: expands to
`cactus_log(LOG_ERROR, LOG_TAG, msg)`. -/
def CACTUS_LOG_ERROR (msg : String) (s : LogState) : LogState :=
  cactus_log LogLevel.LOG_ERROR LOG_TAG msg s

/-- C6: the logging severity levels are exactly DEBUG, INFO, WARNING,
ERROR with numeric values 0, 1, 2, 3, totally ordered by increasing
severity. -/
theorem log_levels_ordered :
    LogLevel.toNat .LOG_DEBUG = 0
    ∧ LogLevel.toNat .LOG_INFO = 1
    ∧ LogLevel.toNat .LOG_WARNING = 2
    ∧ LogLevel.toNat .LOG_ERROR = 3
    ∧ LogLevel.toNat .LOG_DEBUG < LogLevel.toNat .LOG_INFO
    ∧ LogLevel.toNat .LOG_INFO < LogLevel.toNat .LOG_WARNING
    ∧ LogLevel.toNat .LOG_WARNING < LogLevel.toNat .LOG_ERROR
    ∧ (∀ l : LogLevel,
        l = .LOG_DEBUG ∨ l = .LOG_INFO ∨ l = .LOG_WARNING ∨ l = .LOG_ERROR) := by
  refine ⟨rfl, rfl, rfl, rfl, by decide, by decide, by decide, ?_⟩
  intro l
  cases l <;> simp

/-- C7: each convenience macro expands to a `cactus_log` call with the
corresponding level and the fixed tag literal `"CactusUtil"`, so the call
site omits the tag. -/
theorem log_macros_fixed_tag :
    (∀ (msg : String) (s : LogState),
        CACTUS_LOG_DEBUG msg s = cactus_log .LOG_DEBUG "CactusUtil" msg s)
    ∧ (∀ (msg : String) (s : LogState),
        CACTUS_LOG_INFO msg s = cactus_log .LOG_INFO "CactusUtil" msg s)
    ∧ (∀ (msg : String) (s : LogState),
        CACTUS_LOG_WARNING msg s = cactus_log .LOG_WARNING "CactusUtil" msg s)
    ∧ (∀ (msg : String) (s : LogState),
        CACTUS_LOG_ERROR msg s = cactus_log .LOG_ERROR "CactusUtil" msg s)
    ∧ LOG_TAG = "CactusUtil" :=
  ⟨fun _ _ => rfl, fun _ _ => rfl, fun _ _ => rfl, fun _ _ => rfl, rfl⟩

/-! ## Overload shape of `cactus_log` (`logging.h`) -/

/-- A C++ parameter type as it appears in the `cactus_log` declarations. -/
inductive CppParam where
  | logLevelParam
  | constCharPtrParam
  | constStdStringRefParam
deriving DecidableEq, Repr

/-- Whether the referent of the parameter is const-qualified in the
declaration (`const char*`, `const std::string&`). -/
def CppParam.isConstQualified : CppParam → Bool
  | .logLevelParam => false
  | .constCharPtrParam => true
  | .constStdStringRefParam => true

/-- The parameter lists of the two `cactus_log` overloads declared in
`logging.h`, in declaration order. -/
def cactus_log_overloads : List (List CppParam) :=
  [[.logLevelParam, .constCharPtrParam, .constCharPtrParam],
   [.logLevelParam, .constCharPtrParam, .constStdStringRefParam]]

/-- C9: `cactus_log` has exactly two overloads, identical in their
(level, tag) prefix and differing only in the message representation
(raw byte-string vs `std::string`); tag and message parameters are
const-qualified in both, the two overloads emit the same record, and the
emitted record carries the tag and message unchanged. -/
theorem cactus_log_two_overloads :
    cactus_log_overloads.length = 2
    ∧ cactus_log_overloads.map (fun ps => ps.take 2)
        = [[.logLevelParam, .constCharPtrParam],
           [.logLevelParam, .constCharPtrParam]]
    ∧ cactus_log_overloads.map (fun ps => ps.drop 2)
        = [[.constCharPtrParam], [.constStdStringRefParam]]
    ∧ (cactus_log_overloads.all
        (fun ps => (ps.drop 1).all CppParam.isConstQualified)) = true
    ∧ (∀ (l : LogLevel) (t m : String) (s : LogState),
        cactus_log_string l t m s = cactus_log l t m s)
    ∧ (∀ (l : LogLevel) (t m : String) (s : LogState),
        (cactus_log l t m s).sink = ⟨l, t, m⟩ :: s.sink) := by
  refine ⟨rfl, rfl, rfl, by decide, fun _ _ _ _ => rfl, fun _ _ _ _ => rfl⟩

/-! ## The unified call surface: logging plus telemetry stub -/

/-- Combined state threaded through every boundary call: the log sink and
the observable process state. -/
structure SysState where
  logs : LogState
  proc : ProcessState
deriving DecidableEq, Repr

/-- Errors a boundary call could in principle signal. No call of this
surface ever constructs one. -/
inductive CactusError where
  | failure (msg : String)
deriving DecidableEq, Repr

/-- One call to the logging facade or the telemetry stub. -/
inductive CactusCall (μ : Type) where
  | logRaw (level : LogLevel) (tag message : String)
  | logString (level : LogLevel) (tag message : String)
  | telem (c : cactus.telemetry.TelemetryCall μ)

/-- Execute one boundary call. Fallible code would return `.error`;
every call of this surface returns `.ok` with the `void` result `()`. -/
def execCall {μ : Type} : CactusCall μ → SysState → Except CactusError (Unit × SysState)
  | .logRaw l t m, s => .ok ((), ⟨cactus_log l t m s.logs, s.proc⟩)
  | .logString l t m, s => .ok ((), ⟨cactus_log_string l t m s.logs, s.proc⟩)
  | .telem c, s => .ok ((), ⟨s.logs, cactus.telemetry.step c s.proc⟩)

/-- C3: every logging call and every telemetry stub call always succeeds:
for all inputs it returns the void result `()` and never signals an
error. -/
theorem calls_always_succeed :
    ∀ (μ : Type) (c : CactusCall μ) (s : SysState),
      ∃ s2 : SysState, execCall c s = .ok ((), s2) := by
  intro μ c s
  cases c <;> exact ⟨_, rfl⟩

/-! ## The declaration surface: names, parameter types, linkage -/

/-- C parameter types appearing in the boundary declarations. -/
inductive CType where
  | constCharPtr
  | boolType
  | doubleType
  | intType
  | completionMetricsRef
deriving DecidableEq, Repr

/-- C return types appearing in the boundary declarations. -/
inductive CRet where
  | void
  | constCharPtr
deriving DecidableEq, Repr

/-- Linkage of a declaration: C linkage (inside `extern "C"`) or C++
linkage (plain namespace members, mangled names). -/
inductive Linkage where
  | c
  | cpp
deriving DecidableEq, Repr

/-- One function declaration of the boundary surface. -/
structure CDecl where
  name : String
  linkage : Linkage
  params : List CType
  ret : CRet
deriving DecidableEq, Repr

/-- The registration surface of `cactus_util.h`: `register_app`,
`get_device_id`, `free_string` inside `extern "C"`, plus
`set_android_data_directory` under `#ifdef __ANDROID__`. -/
def registrationDecls (android : Bool) : List CDecl :=
  [⟨"register_app", .c, [.constCharPtr], .constCharPtr⟩,
   ⟨"get_device_id", .c, [.constCharPtr], .constCharPtr⟩,
   ⟨"free_string", .c, [.constCharPtr], .void⟩]
  ++ (if android then
        [⟨"set_android_data_directory", .c, [.constCharPtr], .void⟩]
      else [])

/-- The fifteen function definitions of `telemetry_stub.cpp`, in source
order. They live in `namespace cactus::telemetry`, hence C++ linkage. -/
def telemetryStubDecls : List CDecl :=
  [⟨"init", .cpp, [.constCharPtr, .constCharPtr, .constCharPtr], .void⟩,
   ⟨"setEnabled", .cpp, [.boolType], .void⟩,
   ⟨"setCloudDisabled", .cpp, [.boolType], .void⟩,
   ⟨"setTelemetryEnvironment", .cpp, [.constCharPtr, .constCharPtr], .void⟩,
   ⟨"setCloudKey", .cpp, [.constCharPtr], .void⟩,
   ⟨"recordInit", .cpp, [.constCharPtr, .boolType, .doubleType, .constCharPtr], .void⟩,
   ⟨"recordCompletion", .cpp, [.constCharPtr, .completionMetricsRef], .void⟩,
   ⟨"recordCompletion", .cpp,
      [.constCharPtr, .boolType, .doubleType, .doubleType, .doubleType,
       .intType, .constCharPtr], .void⟩,
   ⟨"recordEmbedding", .cpp, [.constCharPtr, .boolType, .constCharPtr], .void⟩,
   ⟨"recordTranscription", .cpp,
      [.constCharPtr, .boolType, .doubleType, .doubleType, .doubleType,
       .intType, .constCharPtr], .void⟩,
   ⟨"recordStreamTranscription", .cpp,
      [.constCharPtr, .boolType, .doubleType, .doubleType, .doubleType,
       .intType, .doubleType, .doubleType, .doubleType, .intType,
       .constCharPtr], .void⟩,
   ⟨"setStreamMode", .cpp, [.boolType], .void⟩,
   ⟨"markInference", .cpp, [.boolType], .void⟩,
   ⟨"flush", .cpp, [], .void⟩,
   ⟨"shutdown", .cpp, [], .void⟩]

/-- Every function declaration of the boundary surface, registration
plus telemetry stub. -/
def allBoundaryDecls (android : Bool) : List CDecl :=
  registrationDecls android ++ telemetryStubDecls

/-- The fourteen telemetry entry-point names enumerated by the spec, in
the spec's order. -/
def claimedTelemetryEntryPoints : List String :=
  ["init", "setEnabled", "setCloudDisabled", "setTelemetryEnvironment",
   "setCloudKey", "recordInit", "recordCompletion", "recordEmbedding",
   "recordTranscription", "recordStreamTranscription", "setStreamMode",
   "markInference", "flush", "shutdown"]

/-- C2: the telemetry stub implements exactly the fourteen listed entry
points and no others, with `recordCompletion` overloaded twice (fifteen
definitions in total), each with its exact parameter list and arity, and
every one returning void. -/
theorem telemetry_stub_entry_points :
    telemetryStubDecls.length = 15
    ∧ (telemetryStubDecls.map CDecl.name).dedup = claimedTelemetryEntryPoints
    ∧ (telemetryStubDecls.map CDecl.name).count "recordCompletion" = 2
    ∧ telemetryStubDecls.map (fun d => (d.name, d.params.length))
        = [("init", 3), ("setEnabled", 1), ("setCloudDisabled", 1),
           ("setTelemetryEnvironment", 2), ("setCloudKey", 1),
           ("recordInit", 4), ("recordCompletion", 2),
           ("recordCompletion", 7), ("recordEmbedding", 3),
           ("recordTranscription", 7), ("recordStreamTranscription", 11),
           ("setStreamMode", 1), ("markInference", 1), ("flush", 0),
           ("shutdown", 0)]
    ∧ telemetryStubDecls.map CDecl.ret = List.replicate 15 CRet.void := by
  refine ⟨rfl, by decide, by decide, rfl, rfl⟩

/-- C4 counterexample: the claim that every telemetry stub entry point is
exposed with C linkage is false: `cactus::telemetry::init` is a plain
member of `namespace cactus::telemetry`, hence has C++ linkage, and the
universally quantified claim fails on the full boundary surface. -/
theorem extern_c_claim_counterexample :
    telemetryStubDecls.head? = some
      ⟨"init", Linkage.cpp, [.constCharPtr, .constCharPtr, .constCharPtr], .void⟩
    ∧ Linkage.cpp ≠ Linkage.c
    ∧ ¬ ((allBoundaryDecls true).all (fun d => d.linkage == Linkage.c) = true) := by
  refine ⟨rfl, by decide, by decide⟩

/-- C4 amended: every registration-surface function of `cactus_util.h`
(on Android and non-Android builds alike) is exposed with C linkage, with
return type `const char*` exactly for the owned-string returners
(`register_app`, `get_device_id`) and `void` otherwise; the telemetry
stub definitions, by contrast, all carry C++ namespace linkage. -/
theorem extern_c_registration_surface :
    ∀ android : Bool,
      ((registrationDecls android).all (fun d => d.linkage == Linkage.c)) = true
      ∧ ((registrationDecls android).all (fun d =>
            (d.ret == CRet.constCharPtr)
              == (d.name == "register_app" || d.name == "get_device_id"))) = true
      ∧ (telemetryStubDecls.all (fun d => d.linkage == Linkage.cpp)) = true := by
  decide

/-- C8: `set_android_data_directory` is declared in the registration
surface exactly when building for an Android-class target. -/
theorem android_gated_symbol :
    ∀ android : Bool,
      ("set_android_data_directory" ∈ (registrationDecls android).map CDecl.name)
        ↔ android = true := by
  decide

/-! ## The heap ownership model for the registration surface -/

/-- A heap of live string allocations: the next fresh allocation id and
the live (id, contents) cells. -/
structure Heap where
  nextId : Nat
  live : List (Nat × String)
deriving DecidableEq, Repr

/-- A heap is well formed when every live allocation id was issued
before `nextId`. -/
def Heap.WF (h : Heap) : Prop := ∀ p ∈ h.live, p.1 < h.nextId

/-- Modelled from the spec: `register_app` is implemented in the closed
prebuilt binary; the spec says it accepts an opaque encrypted payload and
returns a newly allocated owned C string whose contents are unspecified,
so the model takes the contents-computing function `f` as a parameter and
allocates a fresh heap cell, returning the fresh pointer and the new
heap. -/
def register_app (f : String → String) (encrypted_data : String) (h : Heap) :
    Nat × Heap :=
  (h.nextId, ⟨h.nextId + 1, (h.nextId, f encrypted_data) :: h.live⟩)

/-- Modelled from the spec: `get_device_id` is implemented in the closed
prebuilt binary; the spec says it accepts a token and returns a newly
allocated device identifier string, with the same ownership contract as
`register_app`. -/
def get_device_id (g : String → String) (current_token : String) (h : Heap) :
    Nat × Heap :=
  (h.nextId, ⟨h.nextId + 1, (h.nextId, g current_token) :: h.live⟩)

/-- Modelled from the spec: `free_string` releases a string previously
returned by `register_app` or `get_device_id`; calling it on anything
else is undefined behavior, modelled as `none`. -/
def free_string (ptr : Nat) (h : Heap) : Option Heap :=
  if h.live.any (fun p => p.1 == ptr) then
    some ⟨h.nextId, h.live.filter (fun p => p.1 != ptr)⟩
  else none

/-- Freeing the cell just allocated on a well-formed heap succeeds and
restores exactly the previous live set. -/
theorem alloc_then_free (c : String) (h : Heap) (hwf : h.WF) :
    free_string h.nextId ⟨h.nextId + 1, (h.nextId, c) :: h.live⟩
      = some ⟨h.nextId + 1, h.live⟩ := by
  have h1 : (((h.nextId, c) :: h.live).any (fun p => p.1 == h.nextId)) = true := by
    simp
  have h2 : ((h.nextId, c) :: h.live).filter (fun p => p.1 != h.nextId) = h.live := by
    rw [List.filter_cons]
    have hhead : (((h.nextId, c) : Nat × String).1 != h.nextId) = false := by simp
    rw [hhead]
    simp only [Bool.false_eq_true, if_false]
    apply List.filter_eq_self.mpr
    intro p hp
    have hlt := hwf p hp
    simp only [bne_iff_ne, ne_eq]
    omega
  simp only [free_string, h1, if_true, h2]

/-- The pointer returned by a fresh allocation is not among the
previously live allocation ids of a well-formed heap. -/
theorem fresh_not_live (h : Heap) (hwf : h.WF) :
    h.nextId ∉ h.live.map Prod.fst := by
  intro hmem
  rcases List.mem_map.mp hmem with ⟨p, hp, hfst⟩
  have := hwf p hp
  omega

/-- C5: on any well-formed heap and any input string (the empty string
included), `register_app` and `get_device_id` each return a newly
allocated pointer (not previously live), and passing that pointer to
`free_string` succeeds (no crash) and restores exactly the prior live
set (no leak). -/
theorem free_after_alloc_safe :
    ∀ (f g : String → String) (x : String) (h : Heap), h.WF →
      ((register_app f x h).1 ∉ h.live.map Prod.fst
        ∧ free_string (register_app f x h).1 (register_app f x h).2
            = some ⟨h.nextId + 1, h.live⟩)
      ∧ ((get_device_id g x h).1 ∉ h.live.map Prod.fst
        ∧ free_string (get_device_id g x h).1 (get_device_id g x h).2
            = some ⟨h.nextId + 1, h.live⟩) := by
  intro f g x h hwf
  exact ⟨⟨fresh_not_live h hwf, alloc_then_free (f x) h hwf⟩,
         ⟨fresh_not_live h hwf, alloc_then_free (g x) h hwf⟩⟩

/-- C5 witness: on the empty well-formed heap and the empty input string,
allocate-then-free round-trips to the empty live set. -/
theorem free_after_alloc_safe_witness :
    Heap.WF ⟨0, []⟩
    ∧ free_string (register_app id "" ⟨0, []⟩).1 (register_app id "" ⟨0, []⟩).2
        = some ⟨1, []⟩ := by
  have hwf : Heap.WF (⟨0, []⟩ : Heap) := by
    intro p hp
    exact absurd hp (List.not_mem_nil p)
  exact ⟨hwf, ((free_after_alloc_safe id id "" ⟨0, []⟩ hwf).1).2⟩

/-- C10: the telemetry stub's behavior is independent of its argument
values: any two calls to the same entry point, with any argument lists,
any null-or-not pointer arguments, and metrics of any two types, produce
identical process states (noninterference); in particular the
`CompletionMetrics` argument is never accessed. -/
theorem telemetry_stub_noninterference :
    ∀ (μ₁ μ₂ : Type) (c₁ : cactus.telemetry.TelemetryCall μ₁)
      (c₂ : cactus.telemetry.TelemetryCall μ₂) (s : ProcessState),
      c₁.epName = c₂.epName →
      cactus.telemetry.step c₁ s = cactus.telemetry.step c₂ s := by
  intro μ₁ μ₂ c₁ c₂ s hname
  rw [cactus.telemetry.step_eq, cactus.telemetry.step_eq]

/-- C10 witness: a `recordCompletion` call with a null pointer and a
`Unit` metrics value is indistinguishable from one with a non-null
pointer and a `Nat` metrics value. -/
theorem telemetry_stub_noninterference_witness :
    (cactus.telemetry.TelemetryCall.epName
        (cactus.telemetry.TelemetryCall.recordCompletion none () : cactus.telemetry.TelemetryCall Unit)
      = cactus.telemetry.TelemetryCall.epName
        (cactus.telemetry.TelemetryCall.recordCompletion (some "prompt") 7 : cactus.telemetry.TelemetryCall Nat))
    ∧ cactus.telemetry.step
        (cactus.telemetry.TelemetryCall.recordCompletion none () : cactus.telemetry.TelemetryCall Unit)
        ⟨[], [], []⟩
      = cactus.telemetry.step
        (cactus.telemetry.TelemetryCall.recordCompletion (some "prompt") 7 : cactus.telemetry.TelemetryCall Nat)
        ⟨[], [], []⟩ :=
  ⟨rfl, telemetry_stub_noninterference Unit Nat _ _ _ rfl⟩
